import Mathlib

/-!
Verification development for the AI essay generator application
(`src/aiessay.py`), a single-page tool with a credential store, a per-user
append-only history store, a document text extractor, an essay prompt
composer, and an export formatter.  The external collaborators (the UI
framework, the remote generation service, the PDF/DOCX parsing libraries)
are treated as opaque inputs, exactly as the design document scopes them.
-/

namespace AiEssay

/-! ## Python string operations

Python strings are sequences of Unicode code points; the operations the
source uses (slicing, `replace`, `strip`, `lower`, `endswith`) are modelled
here over the code-point list `String.data`, which matches Python's
character-based semantics and keeps every definition kernel-computable. -/

/-- Python slice `s[:n]`: the first `n` characters (code points) of `s`,
the whole string when it is shorter. -/
def pyTake (s : String) (n : Nat) : String :=
  String.mk (s.data.take n)

/-- Python `s.replace(' ', '_')`: the single-character pattern makes this a
character-wise map. -/
def pyReplaceSpaceUnderscore (s : String) : String :=
  String.mk (s.data.map (fun c => if c = ' ' then '_' else c))

/-- Python `s.strip()`: drop whitespace characters from both ends. -/
def pyStrip (s : String) : String :=
  String.mk (((s.data.dropWhile Char.isWhitespace).reverse.dropWhile
    Char.isWhitespace).reverse)

/-- Python `s.lower()`. -/
def pyLower (s : String) : String :=
  String.mk (s.data.map Char.toLower)

/-- Python `s.endswith(sfx)`. -/
def pyEndsWith (s sfx : String) : Bool :=
  List.isSuffixOf sfx.data s.data

/-! ## History store (`load_history` / `save_essay`)

The per-user history file holds a JSON array of records with fields
`title`, `content` and `timestamp`.  The file either does not exist yet
(`none`) or holds a list of entries (`some entries`). -/

structure EssayEntry where
  title : String
  content : String
  timestamp : String
  deriving DecidableEq, Repr

/-- The persisted per-user history file: `none` when the file is absent,
`some entries` when it exists and holds `entries`. -/
abbrev HistoryStore : Type := Option (List EssayEntry)

/-- `load_history` from the source: if the file exists, parse its list,
otherwise return the empty list.  Total: it never fails. -/
def load_history : HistoryStore → List EssayEntry
  | some entries => entries
  | none => []

/-- `save_essay` from the source: read the current list, append one record
built from the title, the content and the current timestamp (the timestamp
is an explicit argument here, standing for `datetime.now().strftime(...)`),
and rewrite the whole file. -/
def save_essay (title content timestamp : String) (s : HistoryStore) : HistoryStore :=
  some (load_history s ++ [{ title := title, content := content, timestamp := timestamp }])

/-- A sequence of `save_essay` calls, oldest first. -/
def appendAll (ops : List (String × String × String)) (s : HistoryStore) : HistoryStore :=
  ops.foldl (fun acc op => save_essay op.1 op.2.1 op.2.2 acc) s

/-! ## Credential store (`load_users` / signup / login branches)

`users.json` is a single JSON object mapping each username to a record
holding its plaintext password.  Insertion order is preserved, so the
mapping is an association list of `(username, password)` pairs. -/

/-- The credential mapping: username to plaintext password, in insertion
order, one pair per username. -/
abbrev UserStore : Type := List (String × String)

/-- Outcome of the signup branch. -/
inductive SignupResult where
  | success
  | alreadyExists
  deriving DecidableEq, Repr

/-- Outcome of the login branch. -/
inductive LoginResult where
  | success
  | invalidCredentials
  deriving DecidableEq, Repr

/-- The Signup branch of the source: if the username is already a key of
`users`, report the collision and leave the store alone; otherwise insert
the new record (a fresh key lands at the end of the mapping) and persist
the whole mapping. -/
def signup (username password : String) (users : UserStore) : UserStore × SignupResult :=
  if (users.lookup username).isSome then
    (users, .alreadyExists)
  else
    (users ++ [(username, password)], .success)

/-- The Login branch of the source: fail when the username is absent or
the stored password differs from the supplied one (plain string equality),
succeed otherwise. -/
def login (username password : String) (users : UserStore) : LoginResult :=
  match users.lookup username with
  | none => .invalidCredentials
  | some stored => if stored ≠ password then .invalidCredentials else .success

/-! ## Content extractor (`extract_text`)

The PDF and DOCX parsing libraries are opaque collaborators.  A parsed PDF
is its list of pages, each page being what `page.extract_text()` returns:
`some text`, or `none` when the page yields no extractable text (the
source's `or ""` turns that into the empty string).  A parsed DOCX is its
list of paragraph texts in document order. -/

/-- `extract_text` from the source: dispatch on the file-name extension,
accumulate page texts (PDF) or paragraph texts each followed by a line
break (DOCX), leave `text` empty for any other extension, and strip the
result.  Total by construction: it always returns a string. -/
def extract_text (fileName : String) (pdfPages : List (Option String))
    (docxParas : List String) : String :=
  let text :=
    if pyEndsWith fileName ".pdf" then
      pdfPages.foldl (fun acc page => acc ++ page.getD "") ""
    else if pyEndsWith fileName ".docx" then
      docxParas.foldl (fun acc para => acc ++ (para ++ "\n")) ""
    else ""
  pyStrip text

/-! ## Essay generator (prompt composition and the generate-click branch) -/

/-- The fixed delimiter the source puts before the supporting material. -/
def supportingHeader : String :=
  "\n\nUse the following text as supporting material:\n"

/-- `base_prompt` from the source: the instruction embedding the lowered
tone, the word-count target and the topic (between single quotes). -/
def base_prompt (tone : String) (word_count : Nat) (topic : String) : String :=
  "Write a " ++ pyLower tone ++ " essay of around " ++ toString word_count ++
    " words on the topic: \x27" ++ topic ++ "\x27. " ++
    "Include an introduction, body, and conclusion. Make it coherent, structured, and engaging."

/-- The composed instruction actually submitted: `base_prompt`, plus the
supporting-material section holding `text_data[:4000]` when `text_data` is
non-empty (Python truthiness of a string). -/
def composed_prompt (tone : String) (word_count : Nat)
    (topic text_data : String) : String :=
  if text_data ≠ "" then
    base_prompt tone word_count topic ++ supportingHeader ++ pyTake text_data 4000
  else
    base_prompt tone word_count topic

/-- Outcome of pressing the Generate Essay button: either the request is
rejected with a warning before any remote call, or a single remote request
carrying the composed instruction is submitted. -/
inductive GenOutcome where
  | rejected
  | submitted (prompt : String)
  deriving DecidableEq, Repr

/-- The Generate Essay branch of the source: when both the topic and the
extracted text are empty (Python `not topic and not text_data`) surface a
warning and stop; otherwise submit the composed instruction. -/
def generate_click (topic text_data tone : String) (word_count : Nat) : GenOutcome :=
  if topic = "" ∧ text_data = "" then
    .rejected
  else
    .submitted (composed_prompt tone word_count topic text_data)

/-- The body of the source's `try` block, with the remote service opaque:
`remote` is its response (`.ok content`) or its raised error (`.error e`).
On success the stripped essay is persisted with `save_essay` and shown; on
failure the `except` handler only displays the error, so the history store
is returned untouched and no essay is produced. -/
def generation_cycle (remote : Except String String)
    (topic timestamp : String) (st : HistoryStore) : HistoryStore × Option String :=
  match remote with
  | .error _ => (st, none)
  | .ok content =>
      let essay := pyStrip content
      (save_essay topic essay timestamp st, some essay)

/-! ## Export formatter (download file names) -/

/-- The DOCX download file name from the source:
`f"{topic[:30].replace(' ', '_')}_essay.docx"`. -/
def docx_file_name (topic : String) : String :=
  pyReplaceSpaceUnderscore (pyTake topic 30) ++ "_essay.docx"

/-- The TXT download file name from the source:
`f"{topic[:30].replace(' ', '_')}_essay.txt"`. -/
def txt_file_name (topic : String) : String :=
  pyReplaceSpaceUnderscore (pyTake topic 30) ++ "_essay.txt"

/-! ## Theorems -/

/-- Each `save_essay` call extends the stored list on the right by exactly
one entry, so a sequence of them appends its entries in operation order. -/
lemma load_history_appendAll (ops : List (String × String × String)) (s : HistoryStore) :
    load_history (appendAll ops s) =
      load_history s ++
        ops.map (fun op =>
          { title := op.1, content := op.2.1, timestamp := op.2.2 : EssayEntry }) := by
  induction ops generalizing s with
  | nil => simp [appendAll]
  | cons op ops ih =>
    have h1 : appendAll (op :: ops) s = appendAll ops (save_essay op.1 op.2.1 op.2.2 s) := rfl
    rw [h1, ih]
    simp [save_essay, load_history]

/-- C1: starting from a user's store with no entries yet (the store file is
absent, or exists holding the empty list), a sequence of N `save_essay`
appends followed by `load_history` returns exactly those N entries, in
append order, each with the title, content and timestamp it was given. -/
theorem history_roundtrip (ops : List (String × String × String)) (s : HistoryStore)
    (h : load_history s = []) :
    load_history (appendAll ops s) =
      ops.map (fun op =>
        { title := op.1, content := op.2.1, timestamp := op.2.2 : EssayEntry }) := by
  rw [load_history_appendAll, h, List.nil_append]

/-- Witness for C1: two concrete appends on the absent store file. -/
theorem history_roundtrip_witness :
    load_history (none : HistoryStore) = [] ∧
      load_history (appendAll
          [("t1", "c1", "2024-01-01 10:00:00"), ("t2", "c2", "2024-01-01 10:05:00")] none) =
        [{ title := "t1", content := "c1", timestamp := "2024-01-01 10:00:00" },
         { title := "t2", content := "c2", timestamp := "2024-01-01 10:05:00" }] :=
  ⟨rfl, history_roundtrip
    [("t1", "c1", "2024-01-01 10:00:00"), ("t2", "c2", "2024-01-01 10:05:00")] none rfl⟩

/-- C2: signup with a username already present reports the collision and
returns the credential store unchanged, so the stored record for that
username and every other record are untouched. -/
theorem signup_existing_unchanged (username password : String) (users : UserStore)
    (h : (users.lookup username).isSome = true) :
    signup username password users = (users, SignupResult.alreadyExists) := by
  simp [signup, h]

/-- Witness for C2: signing up `alice` again with a different password. -/
theorem signup_existing_unchanged_witness :
    ((([("alice", "pw1"), ("bob", "pw2")] : UserStore).lookup "alice").isSome = true) ∧
      signup "alice" "other" [("alice", "pw1"), ("bob", "pw2")] =
        ([("alice", "pw1"), ("bob", "pw2")], SignupResult.alreadyExists) :=
  ⟨by decide, signup_existing_unchanged "alice" "other"
    [("alice", "pw1"), ("bob", "pw2")] (by decide)⟩

/-- C3: login succeeds exactly when the username is a key and the stored
password equals the supplied one under plain string equality (code-point
exact, no case folding, no trimming), and fails with invalid credentials in
every other case. -/
theorem login_exact_comparison (username password : String) (users : UserStore) :
    (login username password users = LoginResult.success ↔
      users.lookup username = some password) ∧
    (login username password users = LoginResult.invalidCredentials ↔
      users.lookup username ≠ some password) := by
  cases h : users.lookup username with
  | none => simp [login, h]
  | some stored =>
    by_cases hp : stored = password
    · subst hp; simp [login, h]
    · simp [login, h, hp]

/-- C4: pressing Generate Essay with an empty topic and empty extracted
text surfaces the warning and stops: no remote request is submitted. -/
theorem empty_request_rejected (tone : String) (word_count : Nat)
    (topic text_data : String) (h1 : topic = "") (h2 : text_data = "") :
    generate_click topic text_data tone word_count = GenOutcome.rejected := by
  subst h1; subst h2
  simp [generate_click]

/-- Witness for C4: the empty request at concrete settings. -/
theorem empty_request_rejected_witness :
    ("" : String) = "" ∧ generate_click "" "" "Academic" 1000 = GenOutcome.rejected :=
  ⟨rfl, empty_request_rejected "Academic" 1000 "" "" rfl rfl⟩

/-- C5: with non-empty supporting text the submitted instruction is the
base prompt followed by the supporting-material section holding exactly the
first 4000 characters of the text, and when the text has at most 4000
characters that slice is the whole text. -/
theorem supporting_text_truncated (tone : String) (word_count : Nat)
    (topic text_data : String) (h : text_data ≠ "") :
    composed_prompt tone word_count topic text_data =
      base_prompt tone word_count topic ++ supportingHeader ++ pyTake text_data 4000 ∧
    (text_data.data.length ≤ 4000 → pyTake text_data 4000 = text_data) := by
  refine ⟨by simp [composed_prompt, h], fun hlen => ?_⟩
  unfold pyTake
  rw [List.take_of_length_le hlen]

/-- Witness for C5: a short supporting text is included in full. -/
theorem supporting_text_truncated_witness :
    ("source text" : String) ≠ "" ∧
      (composed_prompt "Academic" 800 "topic" "source text" =
          base_prompt "Academic" 800 "topic" ++ supportingHeader ++
            pyTake "source text" 4000 ∧
        (("source text" : String).data.length ≤ 4000 →
          pyTake "source text" 4000 = "source text")) :=
  ⟨by decide, supporting_text_truncated "Academic" 800 "topic" "source text" (by decide)⟩

/-- C6: PDF extraction is total and returns the (stripped) concatenation of
the per-page texts in page order, a page yielding no extractable text
contributing the empty string; no failure is raised, as the result is a
plain string for every page list. -/
theorem pdf_extraction_total (fileName : String) (pdfPages : List (Option String))
    (docxParas : List String) (h : pyEndsWith fileName ".pdf" = true) :
    extract_text fileName pdfPages docxParas =
      pyStrip (String.join (pdfPages.map (fun page => page.getD ""))) := by
  simp [extract_text, h, String.join, List.foldl_map]

/-- Witness for C6: a document whose middle page yields no extractable
text still returns the other pages' text, with no failure. -/
theorem pdf_extraction_total_witness :
    pyEndsWith "climate.pdf" ".pdf" = true ∧
      extract_text "climate.pdf" [some "page one ", none, some "page two"] [] =
        pyStrip (String.join ["page one ", "", "page two"]) :=
  ⟨by decide, pdf_extraction_total "climate.pdf"
    [some "page one ", none, some "page two"] [] (by decide)⟩

/-- C7: both download file names share the stem built from the first 30
characters of the title with spaces replaced by underscores followed by
the fixed `_essay` tag, each completed by its extension; for the title
`My Topic On Climate Change Effects` that 30-character stem base is
`My_Topic_On_Climate_Change_Eff`. -/
theorem export_filename_format (topic : String) :
    docx_file_name topic =
      (pyReplaceSpaceUnderscore (pyTake topic 30) ++ "_essay") ++ ".docx" ∧
    txt_file_name topic =
      (pyReplaceSpaceUnderscore (pyTake topic 30) ++ "_essay") ++ ".txt" ∧
    pyReplaceSpaceUnderscore (pyTake "My Topic On Climate Change Effects" 30) =
      "My_Topic_On_Climate_Change_Eff" := by
  have e1 : ("_essay" : String) ++ ".docx" = "_essay.docx" := by decide
  have e2 : ("_essay" : String) ++ ".txt" = "_essay.txt" := by decide
  refine ⟨?_, ?_, by decide⟩
  · unfold docx_file_name
    rw [String.append_assoc, e1]
  · unfold txt_file_name
    rw [String.append_assoc, e2]

/-- C8: when the remote generation call raises an error, the cycle returns
the history store unchanged and produces no essay — `save_essay` runs only
after a successful response. -/
theorem failed_generation_preserves_history (e topic timestamp : String)
    (st : HistoryStore) :
    generation_cycle (Except.error e) topic timestamp st = (st, none) := rfl

/-- C9: loading the history of a user whose store file is absent returns
the empty list and does not fail. -/
theorem load_history_missing_file : load_history (none : HistoryStore) = [] := rfl

/-- C10: an uploaded file whose name ends in neither `.pdf` nor `.docx`
deterministically yields the empty string from `extract_text`: no error and
no rejection, just empty text. -/
theorem unrecognized_extension_yields_empty (fileName : String)
    (pdfPages : List (Option String)) (docxParas : List String)
    (h1 : pyEndsWith fileName ".pdf" = false)
    (h2 : pyEndsWith fileName ".docx" = false) :
    extract_text fileName pdfPages docxParas = "" := by
  simp [extract_text, h1, h2, pyStrip]

/-- Witness for C10: a plain-text upload name with non-empty parsed
contents still extracts to the empty string. -/
theorem unrecognized_extension_yields_empty_witness :
    pyEndsWith "notes.txt" ".pdf" = false ∧
      pyEndsWith "notes.txt" ".docx" = false ∧
      extract_text "notes.txt" [some "x"] ["y"] = "" :=
  ⟨by decide, by decide,
    unrecognized_extension_yields_empty "notes.txt" [some "x"] ["y"]
      (by decide) (by decide)⟩

end AiEssay
